import Mathlib

/-
Verification of the ELM327 OBD2 backend (api/utils/elm327.py, api/utils/dtc.py,
api/routers/scanner.py) against its natural-language specification.

Python strings are modelled as `List Char` (`PyStr`).  Fallible Python code
(functions that can raise) is modelled with `Option`/`Except`.  Machine
integers are `Nat` (Python ints are unbounded, so no wrapping is needed).
-/

abbrev PyStr := List Char

/-- Python whitespace characters (`str.strip` / `str.split()` semantics,
ASCII range: space, tab, newline, carriage return, vertical tab, form feed). -/
def isPySpace (c : Char) : Bool :=
  c == ' ' || c == '\t' || c == '\n' || c == '\r' || c == Char.ofNat 11 || c == Char.ofNat 12

/-- Python `str.strip()`: drop whitespace from both ends. -/
def stripPy (l : PyStr) : PyStr :=
  ((l.dropWhile isPySpace).reverse.dropWhile isPySpace).reverse

/-- Python `str.split('\n')`: split on newlines, keeping empty pieces. -/
def splitNl : PyStr → List PyStr
  | [] => [[]]
  | c :: rest =>
    match splitNl rest with
    | [] => [[c]]
    | l :: ls => if c = '\n' then [] :: l :: ls else (c :: l) :: ls

/-- Python `str.split()` (no argument): split on whitespace runs, dropping
empty pieces. -/
def splitWs : PyStr → List PyStr
  | [] => []
  | c :: rest =>
    if isPySpace c then splitWs rest
    else
      match splitWs rest with
      | [] => [[c]]
      | l :: ls =>
        match rest with
        | [] => [[c]]
        | r :: _ => if isPySpace r then [c] :: l :: ls else (c :: l) :: ls

/-- Hex digit test, both cases, as accepted by Python `int(x, 16)`. -/
def isHexDigitPy (c : Char) : Bool :=
  c.isDigit || ('a' ≤ c && c ≤ 'f') || ('A' ≤ c && c ≤ 'F')

/-- Numeric value of a hex digit (junk value 0 on non-digits). -/
def hexVal (c : Char) : Nat :=
  if c.isDigit then c.toNat - 48
  else if 'a' ≤ c && c ≤ 'f' then c.toNat - 87
  else if 'A' ≤ c && c ≤ 'F' then c.toNat - 55
  else 0

/-- Value of a big-endian hex digit string. -/
def parseHexChars (l : PyStr) : Nat :=
  l.foldl (fun a c => a * 16 + hexVal c) 0

/-- Python `int(x, 16)` on a short slice: succeeds on a nonempty all-hex-digit
string.  (Python additionally tolerates surrounding whitespace, an optional
sign and underscores; those shapes are modelled as failures here - the
program only ever passes 2-character slices of device hex payloads.) -/
def pyIntHex (l : PyStr) : Option Nat :=
  if l ≠ [] ∧ l.all isHexDigitPy then some (parseHexChars l) else none

/-- Uppercase hex digit character for a value below 16 (as used by the
Python format spec `X`). -/
def hexDigitChar (d : Nat) : Char :=
  if d < 10 then Char.ofNat (48 + d) else Char.ofNat (55 + d)

/-- Hex digits of `n`, least significant first, driven by fuel so that the
recursion is structural.  `fuel ≥ n` gives the exact digit list. -/
def hexDigitsRev : Nat → Nat → List Nat
  | 0, _ => []
  | fuel + 1, n => if n = 0 then [] else n % 16 :: hexDigitsRev fuel (n / 16)

/-- Python `f"\x7bn:X\x7d"`: uppercase hex rendering of `n` ("0" for 0). -/
def natToHexUpper (n : Nat) : PyStr :=
  if n = 0 then ['0'] else ((hexDigitsRev n n).reverse).map hexDigitChar

/-- Python `f"\x7bn:0wX\x7d"`: uppercase hex rendering left-padded with zeros
to width `w` (longer renderings are kept whole). -/
def natHexPad (w n : Nat) : PyStr :=
  List.replicate (w - (natToHexUpper n).length) '0' ++ natToHexUpper n

/-- Canonical 2-digit uppercase hex rendering of a byte value. -/
def byteHex (b : Nat) : PyStr := natHexPad 2 b

/-- `type_map = \x7b0: "P", 1: "C", 2: "B", 3: "U"\x7d` with
`type_map.get(dtc_type, "P")` (elm327.py lines 225-226). -/
def typeMapGet (t : Nat) : Char :=
  if t = 0 then 'P' else if t = 1 then 'C' else if t = 2 then 'B'
  else if t = 3 then 'U' else 'P'

/-- `ELM327Scanner._parse_dtc` (elm327.py lines 213-232): decode a DTC from
two 2-hex-digit byte strings; `none` models the caught-exception path
(`int(x, 16)` raising on non-hex input). -/
def parse_dtc (first_byte second_byte : PyStr) : Option PyStr :=
  match pyIntHex first_byte, pyIntHex second_byte with
  | some first, some second =>
    some (typeMapGet ((first &&& 0xC0) >>> 6) ::
          natHexPad 4 (((first &&& 0x3F) <<< 8) ||| second))
  | _, _ => none

/-- Spec-side prefix map for the top two bits of the first DTC byte:
00 to P, 01 to C, 10 to B, 11 to U (spec section 8, first bullet). -/
def dtcTypeChar (t : Nat) : Char :=
  if t = 0 then 'P' else if t = 1 then 'C' else if t = 2 then 'B' else 'U'

/-- Uppercase hex digit test (spec side: "4 uppercase hex digits"). -/
def isUpperHex (c : Char) : Bool :=
  c.isDigit || ('A' ≤ c && c ≤ 'F')

lemma hexDigitChar_spec :
    ∀ d : Fin 16, hexVal (hexDigitChar d.val) = d.val ∧
      isHexDigitPy (hexDigitChar d.val) = true ∧
      isUpperHex (hexDigitChar d.val) = true := by decide

lemma hexDigitsRev_lt (fuel : Nat) :
    ∀ n, ∀ d ∈ hexDigitsRev fuel n, d < 16 := by
  induction fuel with
  | zero => intro n d hd; simp [hexDigitsRev] at hd
  | succ f ih =>
    intro n d hd
    by_cases h0 : n = 0
    · simp [hexDigitsRev, h0] at hd
    · simp only [hexDigitsRev, if_neg h0, List.mem_cons] at hd
      rcases hd with h | h
      · subst h; exact Nat.mod_lt _ (by omega)
      · exact ih _ _ h

lemma foldl_hex_map (l : List Nat) (hl : ∀ d ∈ l, d < 16) (a : Nat) :
    (l.map hexDigitChar).foldl (fun x c => x * 16 + hexVal c) a =
      l.foldl (fun x d => x * 16 + d) a := by
  induction l generalizing a with
  | nil => rfl
  | cons d ds ih =>
    have hd : d < 16 := hl d (List.mem_cons_self _ _)
    have := (hexDigitChar_spec ⟨d, hd⟩).1
    simp only [List.map_cons, List.foldl_cons, this]
    exact ih (fun x hx => hl x (List.mem_cons_of_mem _ hx)) _

lemma foldl_digits (fuel : Nat) :
    ∀ n a, n ≤ fuel →
      ((hexDigitsRev fuel n).reverse).foldl (fun x d => x * 16 + d) a =
        a * 16 ^ (hexDigitsRev fuel n).length + n := by
  induction fuel with
  | zero => intro n a hn; interval_cases n; simp [hexDigitsRev]
  | succ f ih =>
    intro n a hn
    by_cases h0 : n = 0
    · simp [hexDigitsRev, h0]
    · have hdivlt : n / 16 < n := Nat.div_lt_self (by omega) (by omega)
      have hdiv : n / 16 ≤ f := by omega
      simp only [hexDigitsRev, if_neg h0, List.reverse_cons, List.foldl_append,
        List.foldl_cons, List.foldl_nil, List.length_cons]
      rw [ih (n / 16) a hdiv, pow_succ]
      have := Nat.div_add_mod n 16
      ring_nf
      omega

lemma parseHexChars_replicate_zero (k : Nat) (l : PyStr) :
    parseHexChars (List.replicate k '0' ++ l) = parseHexChars l := by
  induction k with
  | zero => rfl
  | succ m ih =>
    simpa [parseHexChars, List.replicate_succ] using ih

theorem parseHexChars_natHexPad (w n : Nat) :
    parseHexChars (natHexPad w n) = n := by
  unfold natHexPad
  rw [parseHexChars_replicate_zero]
  unfold natToHexUpper
  by_cases h0 : n = 0
  · simp [h0, parseHexChars, hexVal]
  · rw [if_neg h0]
    unfold parseHexChars
    rw [foldl_hex_map _ (by
        intro d hd
        exact hexDigitsRev_lt n n d (List.mem_reverse.mp hd))]
    simpa using foldl_digits n n 0 le_rfl

lemma natToHexUpper_all_upper (n : Nat) :
    ∀ c ∈ natToHexUpper n, isUpperHex c = true := by
  unfold natToHexUpper
  by_cases h0 : n = 0
  · simp [h0]; decide
  · rw [if_neg h0]
    intro c hc
    rcases List.mem_map.mp hc with ⟨d, hd, rfl⟩
    exact (hexDigitChar_spec ⟨d, hexDigitsRev_lt n n d (List.mem_reverse.mp hd)⟩).2.2

lemma natToHexUpper_all_hex (n : Nat) :
    ∀ c ∈ natToHexUpper n, isHexDigitPy c = true := by
  unfold natToHexUpper
  by_cases h0 : n = 0
  · simp [h0]; decide
  · rw [if_neg h0]
    intro c hc
    rcases List.mem_map.mp hc with ⟨d, hd, rfl⟩
    exact (hexDigitChar_spec ⟨d, hexDigitsRev_lt n n d (List.mem_reverse.mp hd)⟩).2.1

lemma natHexPad_all_hex (w n : Nat) :
    ∀ c ∈ natHexPad w n, isHexDigitPy c = true := by
  intro c hc
  rcases List.mem_append.mp hc with h | h
  · have := List.eq_of_mem_replicate h
    subst this; decide
  · exact natToHexUpper_all_hex n c h

lemma natHexPad_all_upper (w n : Nat) :
    ∀ c ∈ natHexPad w n, isUpperHex c = true := by
  intro c hc
  rcases List.mem_append.mp hc with h | h
  · have := List.eq_of_mem_replicate h
    subst this; decide
  · exact natToHexUpper_all_upper n c h

lemma hexDigitsRev_length_le (fuel : Nat) :
    ∀ n k, n ≤ fuel → n < 16 ^ k → (hexDigitsRev fuel n).length ≤ k := by
  induction fuel with
  | zero => intro n k _ _; simp [hexDigitsRev]
  | succ f ih =>
    intro n k hn hk
    by_cases h0 : n = 0
    · simp [hexDigitsRev, h0]
    · cases k with
      | zero => simp at hk; omega
      | succ k' =>
        have hdivlt : n / 16 < n := Nat.div_lt_self (by omega) (by omega)
        have h1 : n / 16 < 16 ^ k' := by
          rw [Nat.div_lt_iff_lt_mul (by omega)]
          calc n < 16 ^ (k' + 1) := hk
            _ = 16 ^ k' * 16 := by rw [pow_succ]
        simp only [hexDigitsRev, if_neg h0, List.length_cons]
        have := ih (n / 16) k' (by omega) h1
        omega

lemma natHexPad_length (w n : Nat) (hw : 1 ≤ w) (hn : n < 16 ^ w) :
    (natHexPad w n).length = w := by
  have hle : (natToHexUpper n).length ≤ w := by
    unfold natToHexUpper
    by_cases h0 : n = 0
    · simpa [h0] using hw
    · rw [if_neg h0]
      simpa using hexDigitsRev_length_le n n w le_rfl hn
  simp only [natHexPad, List.length_append, List.length_replicate]
  omega

lemma pyIntHex_natHexPad (w n : Nat) (hw : 1 ≤ w) (hn : n < 16 ^ w) :
    pyIntHex (natHexPad w n) = some n := by
  unfold pyIntHex
  rw [if_pos ⟨by
      intro h
      have := natHexPad_length w n hw hn
      rw [h] at this
      simp at this
      omega,
    List.all_eq_true.mpr (natHexPad_all_hex w n)⟩]
  rw [parseHexChars_natHexPad]

set_option maxRecDepth 8192 in
lemma byte_top_bits :
    ∀ b : Fin 256, typeMapGet ((b.val &&& 0xC0) >>> 6) = dtcTypeChar (b.val >>> 6) := by
  decide

/-- C1: for all byte values b0, b1 below 256, `_parse_dtc` on their 2-digit
hex renderings returns a 5-character code: the first character is P/C/B/U
according to the top 2 bits of b0, and the remaining 4 characters are
uppercase hex digits whose value is ((b0 &&& 0x3F) <<< 8) ||| b1. -/
theorem parse_dtc_decodes_bytes (b0 b1 : Nat) (h0 : b0 < 256) (h1 : b1 < 256) :
    ∃ s, parse_dtc (byteHex b0) (byteHex b1) = some s ∧
      s.length = 5 ∧
      s.head? = some (dtcTypeChar (b0 >>> 6)) ∧
      s.tail.length = 4 ∧
      (∀ c ∈ s.tail, isUpperHex c = true) ∧
      parseHexChars s.tail = ((b0 &&& 0x3F) <<< 8) ||| b1 := by
  have hb0 : pyIntHex (byteHex b0) = some b0 :=
    pyIntHex_natHexPad 2 b0 (by omega) (by norm_num; omega)
  have hb1 : pyIntHex (byteHex b1) = some b1 :=
    pyIntHex_natHexPad 2 b1 (by omega) (by norm_num; omega)
  have hand : b0 &&& 0x3F < 64 := by
    have : b0 &&& 0x3F = b0 % 64 := by
      have := Nat.and_pow_two_sub_one_eq_mod b0 6
      norm_num at this
      exact this
    rw [this]
    exact Nat.mod_lt _ (by omega)
  have hcode : ((b0 &&& 0x3F) <<< 8) ||| b1 < 16 ^ 4 := by
    have hl : (b0 &&& 0x3F) <<< 8 < 2 ^ 16 := by
      rw [Nat.shiftLeft_eq]
      norm_num
      omega
    have hr : b1 < 2 ^ 16 := by norm_num; omega
    have := Nat.or_lt_two_pow hl hr
    norm_num at this ⊢
    omega
  refine ⟨typeMapGet ((b0 &&& 0xC0) >>> 6) ::
      natHexPad 4 (((b0 &&& 0x3F) <<< 8) ||| b1),
    by rw [parse_dtc, hb0, hb1], ?_, ?_, ?_, ?_, ?_⟩
  · simp only [List.length_cons]
    rw [natHexPad_length 4 _ (by omega) hcode]
  · simp only [List.head?_cons, Option.some.injEq]
    exact byte_top_bits ⟨b0, h0⟩
  · simp only [List.tail_cons]
    exact natHexPad_length 4 _ (by omega) hcode
  · simp only [List.tail_cons]
    exact natHexPad_all_upper 4 _
  · simp only [List.tail_cons]
    exact parseHexChars_natHexPad 4 _

/-- C1 witness: the theorem applied at the concrete bytes 0x01, 0x71
(the spec's example P0171). -/
theorem parse_dtc_decodes_bytes_witness :
    ∃ s, parse_dtc (byteHex 1) (byteHex 113) = some s ∧
      s.length = 5 ∧
      s.head? = some (dtcTypeChar (1 >>> 6)) ∧
      s.tail.length = 4 ∧
      (∀ c ∈ s.tail, isUpperHex c = true) ∧
      parseHexChars s.tail = ((1 &&& 0x3F) <<< 8) ||| 113 :=
  parse_dtc_decodes_bytes 1 113 (by decide) (by decide)

/-- Python `str.find(needle)` restricted to a found result: index of the
first occurrence (`none` models -1). -/
def findSub (needle : PyStr) : PyStr → Option Nat
  | [] => if needle = [] then some 0 else none
  | c :: rest =>
    if needle.isPrefixOf (c :: rest) then some 0
    else (findSub needle rest).map (· + 1)

/-- The inner DTC-consumption loop of `ELM327Scanner.get_dtc_codes`
(elm327.py lines 190-205): walk the hex payload after the "43" marker in
4-character groups; stop at the all-zero group; otherwise decode the group
and append the code if nonempty and not yet collected. -/
def parseDtcLoop : PyStr → List PyStr → List PyStr
  | c1 :: c2 :: c3 :: c4 :: rest, codes =>
    if [c1, c2] = ['0', '0'] ∧ [c3, c4] = ['0', '0'] then codes
    else
      parseDtcLoop rest
        (match parse_dtc [c1, c2] [c3, c4] with
         | some code => if code = [] ∨ code ∈ codes then codes else codes ++ [code]
         | none => codes)
  | _, codes => codes

/-- Python substring test `needle in hay`. -/
def containsSub (needle hay : PyStr) : Bool :=
  (findSub needle hay).isSome

/-- One line of the outer loop of `get_dtc_codes` (elm327.py lines 175-205):
a line is consumed when it contains "43" and is longer than 10 characters;
the payload starts after the first occurrence of "43" in the stripped line. -/
def processLine (codes : List PyStr) (line : PyStr) : List PyStr :=
  if containsSub ("43".data) line ∧ line.length > 10 then
    match findSub ("43".data) (stripPy line) with
    | some pos => parseDtcLoop ((stripPy line).drop (pos + 2)) codes
    | none => codes
  else codes

/-- `ELM327Scanner.get_dtc_codes` (elm327.py lines 167-211), parametrized by
the raw response text of the "03" command. -/
def get_dtc_codes (response : PyStr) : List PyStr :=
  (splitNl response).foldl processLine []

/-- C2: reaching a group whose two bytes are both "00" stops consumption of
the rest of the line's DTC data - the accumulated codes are returned
unchanged whatever follows, so no P0000 is emitted for the zero group and no
later group contributes; concretely, the payload 0101 0000 0302 yields only
P0101. -/
theorem dtc_zero_group_stops (rest : PyStr) (codes : List PyStr) :
    parseDtcLoop ('0' :: '0' :: '0' :: '0' :: rest) codes = codes ∧
    parseDtcLoop ("010100000302".data) [] = ["P0101".data] :=
  ⟨rfl, by decide⟩

lemma nodup_append_new (codes : List PyStr) (code : PyStr)
    (h : codes.Nodup) (hnew : code ∉ codes) : (codes ++ [code]).Nodup := by
  refine List.nodup_append.mpr ⟨h, List.nodup_singleton _, ?_⟩
  intro a ha hb
  rw [List.mem_singleton] at hb
  subst hb
  exact hnew ha

lemma parseDtcLoop_nodup_bounded (n : Nat) :
    ∀ cs : PyStr, cs.length ≤ n →
      ∀ codes : List PyStr, codes.Nodup → (parseDtcLoop cs codes).Nodup := by
  induction n with
  | zero =>
    intro cs hlen codes h
    have : cs = [] := List.eq_nil_of_length_eq_zero (by omega)
    subst this
    exact h
  | succ m ih =>
    intro cs hlen codes h
    match cs with
    | [] => exact h
    | [c1] => exact h
    | [c1, c2] => exact h
    | [c1, c2, c3] => exact h
    | c1 :: c2 :: c3 :: c4 :: rest =>
      rw [parseDtcLoop]
      split
      · exact h
      · have hrest : rest.length ≤ m := by
          simp only [List.length_cons] at hlen
          omega
        apply ih rest hrest
        cases hp : parse_dtc [c1, c2] [c3, c4] with
        | none => simpa [hp] using h
        | some code =>
          simp only [hp]
          split
          · exact h
          · next hcond =>
            push_neg at hcond
            exact nodup_append_new codes code h hcond.2

lemma parseDtcLoop_nodup (cs : PyStr) (codes : List PyStr) (h : codes.Nodup) :
    (parseDtcLoop cs codes).Nodup :=
  parseDtcLoop_nodup_bounded cs.length cs le_rfl codes h

lemma get_dtc_codes_nodup (response : PyStr) : (get_dtc_codes response).Nodup := by
  unfold get_dtc_codes
  have main : ∀ (lines : List PyStr) (codes : List PyStr), codes.Nodup →
      (lines.foldl processLine codes).Nodup := by
    intro lines
    induction lines with
    | nil => exact fun codes h => h
    | cons line rest ih =>
      intro codes h
      rw [List.foldl_cons]
      apply ih
      unfold processLine
      split
      · split
        · exact parseDtcLoop_nodup _ _ h
        · exact h
      · exact h
  exact main _ [] List.nodup_nil

lemma hexVal_lt (c : Char) : hexVal c < 16 := by
  unfold hexVal
  split_ifs with h1 h2 h3
  · simp [Char.isDigit] at h1
    obtain ⟨ha, hb⟩ := h1
    have : c.toNat ≤ 57 := by exact_mod_cast hb
    omega
  · simp [Char.le_def] at h2
    obtain ⟨ha, hb⟩ := h2
    have : c.toNat ≤ 102 := by exact_mod_cast hb
    omega
  · simp [Char.le_def] at h3
    obtain ⟨ha, hb⟩ := h3
    have : c.toNat ≤ 70 := by exact_mod_cast hb
    omega
  · omega

lemma parseHexChars_lt (l : PyStr) : parseHexChars l < 16 ^ l.length := by
  have main : ∀ a, l.foldl (fun x c => x * 16 + hexVal c) a < (a + 1) * 16 ^ l.length := by
    induction l with
    | nil => intro a; simp
    | cons c cs ih =>
      intro a
      simp only [List.foldl_cons, List.length_cons]
      have hc : a * 16 + hexVal c + 1 ≤ (a + 1) * 16 := by
        have := hexVal_lt c
        omega
      calc cs.foldl (fun x c => x * 16 + hexVal c) (a * 16 + hexVal c)
          < (a * 16 + hexVal c + 1) * 16 ^ cs.length := ih _
        _ ≤ ((a + 1) * 16) * 16 ^ cs.length := Nat.mul_le_mul_right _ hc
        _ = (a + 1) * 16 ^ (cs.length + 1) := by ring
  simpa [parseHexChars] using main 0

lemma pyIntHex_lt (l : PyStr) (v : Nat) (h : pyIntHex l = some v) : v < 16 ^ l.length := by
  unfold pyIntHex at h
  split_ifs at h
  cases h
  exact parseHexChars_lt l

lemma dtc_value_lt (first second : Nat) (h2 : second < 65536) :
    ((first &&& 0x3F) <<< 8) ||| second < 16 ^ 4 := by
  have hand : first &&& 0x3F < 64 := by
    have h := Nat.and_pow_two_sub_one_eq_mod first 6
    norm_num at h
    rw [h]
    exact Nat.mod_lt _ (by omega)
  have hl : (first &&& 0x3F) <<< 8 < 2 ^ 16 := by
    rw [Nat.shiftLeft_eq]
    norm_num
    omega
  have hr : second < 2 ^ 16 := by norm_num; omega
  have := Nat.or_lt_two_pow hl hr
  norm_num at this ⊢
  omega

lemma typeMapGet_mem (t : Nat) :
    (typeMapGet t == 'P' || typeMapGet t == 'B' || typeMapGet t == 'C' ||
      typeMapGet t == 'U') = true := by
  unfold typeMapGet
  split_ifs <;> decide

/-- The validation used twice inside `_clean_dtc_code` (dtc.py lines 41, 76):
exactly 5 characters, first in PBCU, remaining four uppercase hex digits. -/
def dtcValid (l : PyStr) : Bool :=
  (l.length == 5) &&
    (match l with
     | [] => false
     | c :: rest => (c == 'P' || c == 'B' || c == 'C' || c == 'U') && rest.all isUpperHex)

/-- `code.strip().upper()` followed by `re.sub(r'[^A-Z0-9]', '', code)`
(dtc.py lines 34-38). -/
def cleanFiltered (code : PyStr) : PyStr :=
  ((stripPy code).map Char.toUpper).filter fun ch => ch.isDigit || ('A' ≤ ch && ch ≤ 'Z')

/-- The malformed-pattern fixing block of `_clean_dtc_code` (dtc.py lines
44-73), given the first character and the rest of the cleaned string. -/
def cleanFix (c0 : Char) (np : PyStr) : PyStr :=
  if (c0 == 'P' || c0 == 'B' || c0 == 'C' || c0 == 'U') && decide ((c0 :: np).length > 5) then
    c0 ::
      (if np.length = 5 then
        (if (['0', '0'] : PyStr).isPrefixOf np then np.drop 1 else np)
      else if np.length = 6 then
        (if (['0', '0'] : PyStr).isPrefixOf np then
          (if (np.drop 2).take 4 = "1300".data then "0130".data
           else if (np.drop 2).take 4 = "0300".data then "0300".data
           else np.drop 2)
         else np)
      else np)
  else c0 :: np

/-- `_clean_dtc_code` (dtc.py lines 29-79).  The `Except.error` value models
the uncaught IndexError raised by `code[0]` when the cleaned string is empty
while the original input is nonempty. -/
def clean_dtc_code (code : PyStr) : Except PyStr PyStr :=
  if code = [] then .ok []
  else if dtcValid (cleanFiltered code) then .ok (cleanFiltered code)
  else
    match cleanFiltered code with
    | [] => .error ("string index out of range".data)
    | c0 :: np =>
      if dtcValid (cleanFix c0 np) then .ok (cleanFix c0 np) else .ok []

/-- `_generate_generic_description` (dtc.py lines 97-111). -/
def generate_generic_description (code : PyStr) : PyStr :=
  if code = [] ∨ code.length < 5 then "Unknown code".data
  else
    match code with
    | [] => "Unknown code".data
    | c :: _ =>
      (if c = 'P' then "Powertrain".data
       else if c = 'B' then "Body".data
       else if c = 'C' then "Chassis".data
       else if c = 'U' then "Network/Communication".data
       else "Unknown System".data) ++ " Diagnostic Trouble Code ".data ++ code

/-- Python `a or b` on strings: `b` when `a` is missing or empty. -/
def pyOrStr (a : Option PyStr) (b : PyStr) : PyStr :=
  match a with
  | some s => if s = [] then b else s
  | none => b

/-- `get_code_description` (dtc.py lines 81-95), parametrized by the two
JSON-backed lookup tables (the resource files are data, not code, so they
enter the model as functions). -/
def get_code_description (localTable enhancedTable : PyStr → Option PyStr)
    (code : PyStr) : Except PyStr PyStr := do
  let c := (stripPy code).map Char.toUpper
  let cleaned ← clean_dtc_code c
  if cleaned = [] then
    .ok ("Invalid DTC format: ".data ++ c)
  else
    .ok (pyOrStr (localTable cleaned)
          (pyOrStr (enhancedTable cleaned) (generate_generic_description cleaned)))

/-- `categorize_dtc` (dtc.py lines 113-126). -/
def categorize_dtc (code : PyStr) : PyStr :=
  match code with
  | [] => "Unknown".data
  | c :: _ =>
    if Char.toUpper c = 'P' then "Powertrain (Engine/Transmission)".data
    else if Char.toUpper c = 'B' then "Body (Interior/Exterior)".data
    else if Char.toUpper c = 'C' then "Chassis (Brakes/Steering/Suspension)".data
    else if Char.toUpper c = 'U' then "Network/Communication".data
    else "Unknown System".data

def criticalPatterns : List PyStr :=
  ["P030".data, "P056".data, "P060".data, "C000".data, "B000".data]

def highPriorityCodes : List PyStr :=
  ["P0100".data, "P0101".data, "P0102".data, "P0103".data,
   "P0115".data, "P0117".data, "P0118".data,
   "P0120".data, "P0121".data, "P0122".data, "P0123".data,
   "P0171".data, "P0172".data, "P0174".data, "P0175".data,
   "P0500".data]

def moderatePatterns : List PyStr :=
  ["P042".data, "P044".data, "P013".data, "P070".data, "P075".data, "P076".data]

/-- `get_dtc_severity` (dtc.py lines 128-196); the `Except.error` value
models the IndexError propagated out of `_clean_dtc_code`. -/
def get_dtc_severity (code : PyStr) : Except PyStr PyStr := do
  let c := stripPy (code.map Char.toUpper)
  let cleaned ← clean_dtc_code c
  if cleaned = [] then pure ("Unknown".data)
  else if criticalPatterns.any (fun p => p.isPrefixOf cleaned) then pure ("Critical".data)
  else if cleaned ∈ highPriorityCodes then pure ("High".data)
  else if moderatePatterns.any (fun p => p.isPrefixOf cleaned) then pure ("Moderate".data)
  else if ("U".data).isPrefixOf cleaned then pure ("Moderate".data)
  else if ("B".data).isPrefixOf cleaned then
    (if ("B000".data).isPrefixOf cleaned then pure ("Critical".data) else pure ("Low".data))
  else if ("C".data).isPrefixOf cleaned then
    (if ("C000".data).isPrefixOf cleaned ∨ ("C100".data).isPrefixOf cleaned then
      pure ("High".data)
     else pure ("Moderate".data))
  else pure ("Low".data)

/-- C3 counterexample: the malformed 6-character input P00300 is not
rejected - `_clean_dtc_code` silently coerces it to the different non-empty
code P0300 (whose digit string 0300 also differs from the input digits
00300). -/
theorem clean_dtc_code_coerces_P00300 :
    clean_dtc_code ("P00300".data) = Except.ok ("P0300".data) ∧
    "P0300".data ≠ ([] : PyStr) ∧
    "P0300".data ≠ "P00300".data :=
  ⟨rfl, by decide, by decide⟩

/-- C3 (amended): every code the system produces still has the valid
5-character shape - a nonempty result of `_clean_dtc_code` and any code
decoded by `_parse_dtc` from 2-character byte slices is 5 characters with a
PBCU first character and uppercase-hex tail.  (The rejection half of the
original claim is false: see `clean_dtc_code_coerces_P00300` - malformed
6- or 7-character inputs with leading zero digits are silently coerced to a
different valid code instead of being rejected.) -/
theorem trouble_code_shape (s fb sb r : PyStr) :
    (clean_dtc_code s = Except.ok r → r = [] ∨ dtcValid r = true) ∧
    (fb.length = 2 → sb.length = 2 → parse_dtc fb sb = some r → dtcValid r = true) := by
  constructor
  · intro hok
    unfold clean_dtc_code at hok
    split_ifs at hok with h1 h2
    · simp only [Except.ok.injEq] at hok
      exact Or.inl hok.symm
    · simp only [Except.ok.injEq] at hok
      subst hok
      exact Or.inr h2
    · cases hcf : cleanFiltered s with
      | nil => rw [hcf] at hok; simp at hok
      | cons c0 np =>
        rw [hcf] at hok
        dsimp only at hok
        split_ifs at hok with h3
        · simp only [Except.ok.injEq] at hok
          subst hok
          exact Or.inr h3
        · simp only [Except.ok.injEq] at hok
          exact Or.inl hok.symm
  · intro hfb hsb hp
    unfold parse_dtc at hp
    cases h1 : pyIntHex fb with
    | none => rw [h1] at hp; simp at hp
    | some first =>
      cases h2 : pyIntHex sb with
      | none => rw [h1, h2] at hp; simp at hp
      | some second =>
        rw [h1, h2] at hp
        simp only [Option.some.injEq] at hp
        subst hp
        have hsecond : second < 65536 := by
          have := pyIntHex_lt sb second h2
          rw [hsb] at this
          norm_num at this
          omega
        have hcode := dtc_value_lt first second hsecond
        have hlen := natHexPad_length 4 (((first &&& 0x3F) <<< 8) ||| second)
          (by omega) hcode
        have hupper := natHexPad_all_upper 4 (((first &&& 0x3F) <<< 8) ||| second)
        simp only [dtcValid, List.length_cons, hlen]
        simp only [show ((4 : Nat) + 1 == 5) = true from rfl, Bool.true_and]
        rw [Bool.and_eq_true]
        exact ⟨typeMapGet_mem _, List.all_eq_true.mpr hupper⟩

/-- C3 witness: the shape theorem applied to the decode of the concrete
byte pair 03 00, which yields the code P0300. -/
theorem trouble_code_shape_witness : dtcValid ("P0300".data) = true :=
  (trouble_code_shape ("P00300".data) ("03".data) ("00".data) ("P0300".data)).2
    (by decide) (by decide) (by decide)

/-- C10 (code bug): `_clean_dtc_code` is not total.  On the nonempty input
"!!!" the cleanup regex removes every character, and the following `code[0]`
raises an uncaught IndexError, which also escapes `get_code_description`
(the claim says both always return a string). -/
theorem clean_dtc_code_raises_on_punctuation :
    clean_dtc_code ("!!!".data) = Except.error ("string index out of range".data) ∧
    ∀ localTable enhancedTable : PyStr → Option PyStr,
      get_code_description localTable enhancedTable ("!!!".data) =
        Except.error ("string index out of range".data) := by
  constructor
  · rfl
  · intro localTable enhancedTable
    rfl

/-- Python `bytes.fromhex` on a whitespace-free string: pairs of hex digits
to byte values; `none` models the ValueError on odd length or non-hex
characters.  (The inputs built by `_parse_vin` are joins of `split()`
tokens, hence contain no whitespace.) -/
def bytesFromHex : PyStr → Option (List Nat)
  | [] => some []
  | c1 :: c2 :: rest =>
    if isHexDigitPy c1 && isHexDigitPy c2 then
      (bytesFromHex rest).map (fun bs => (hexVal c1 * 16 + hexVal c2) :: bs)
    else none
  | [_] => none

/-- Python `bytes.decode('ascii')`: `none` models the UnicodeDecodeError on
a byte value of 128 or above. -/
def decodeAscii (bs : List Nat) : Option PyStr :=
  if bs.all (· < 128) then some (bs.map Char.ofNat) else none

/-- The body of the matching-line branch of `_parse_vin` (elm327.py lines
401-405): drop the first whitespace token, join the rest, hex-decode to
ASCII, strip.  `Except.error` models an exception caught by the function's
handler. -/
def parseVinLine (l : PyStr) : Except Unit PyStr :=
  match bytesFromHex ((splitWs l).drop 1).flatten with
  | none => .error ()
  | some bs =>
    match decodeAscii bs with
    | none => .error ()
    | some s => .ok (stripPy s)

/-- The line loop of `_parse_vin` (elm327.py lines 398-406): the first line
starting with "49" is decoded and returned; a decode exception yields ""
via the except branch; no matching line yields "". -/
def parse_vin_lines (lines : List PyStr) : PyStr :=
  match lines.find? (fun l => ("49".data).isPrefixOf l) with
  | some l =>
    match parseVinLine l with
    | .ok v => v
    | .error _ => []
  | none => []

/-- `ELM327Scanner._parse_vin` (elm327.py lines 394-409). -/
def parse_vin (response : PyStr) : PyStr :=
  parse_vin_lines (splitNl response)

/-- C4 counterexample: on a two-line Mode 09 VIN reply, `_parse_vin` returns
inside the loop on the first line starting with "49": the result carries
only the first line's characters (here ending "123"), while the second
line's decode would contribute "456" - so the returned VIN does not contain
the characters of every line. -/
theorem parse_vin_ignores_later_lines :
    parse_vin ("49 02 01 31 32 33\n49 02 02 34 35 36".data) =
      [Char.ofNat 2, Char.ofNat 1, '1', '2', '3'] ∧
    '4' ∉ parse_vin ("49 02 01 31 32 33\n49 02 02 34 35 36".data) ∧
    parseVinLine ("49 02 02 34 35 36".data) =
      Except.ok [Char.ofNat 2, Char.ofNat 2, '4', '5', '6'] := by
  refine ⟨by decide, by decide, rfl⟩

/-- C4 (amended): `_parse_vin` concatenates the data bytes of a single
line only - the first line starting with "49" alone determines the result,
whatever lines follow it. -/
theorem parse_vin_uses_first_line (pre post : List PyStr) (l : PyStr)
    (hpre : ∀ p ∈ pre, ("49".data).isPrefixOf p = false)
    (hl : ("49".data).isPrefixOf l = true) :
    parse_vin_lines (pre ++ l :: post) =
      (match parseVinLine l with
       | .ok v => v
       | .error _ => []) := by
  unfold parse_vin_lines
  induction pre with
  | nil => simp [List.find?, hl]
  | cons p ps ih =>
    have hp := hpre p (List.mem_cons_self _ _)
    simp only [List.cons_append, List.find?, hp]
    exact ih (fun q hq => hpre q (List.mem_cons_of_mem _ hq))

/-- C4 witness: the amended theorem applied at a concrete three-line reply
whose middle line is the first "49" line. -/
theorem parse_vin_uses_first_line_witness :
    parse_vin_lines (["OK".data] ++ "49 02 01 31 32 33".data :: ["49 02 02 34 35 36".data]) =
      (match parseVinLine ("49 02 01 31 32 33".data) with
       | .ok v => v
       | .error _ => []) :=
  parse_vin_uses_first_line ["OK".data] ["49 02 02 34 35 36".data]
    ("49 02 01 31 32 33".data) (by decide) (by decide)

/-- The `formulas` dictionary of `_apply_pid_formula` (elm327.py lines
291-314).  Python float arithmetic is modelled exactly in the rationals;
the duplicated dict key "010F" (lines 295 and 302) binds the same formula
twice and appears once here. -/
def formulasTable : List (PyStr × (Nat → ℚ)) :=
  [("0105".data, fun x => (x : ℚ) - 40),
   ("010C".data, fun x => (((x >>> 8) * 256 + (x &&& 0xFF) : Nat) : ℚ) / 4),
   ("010D".data, fun x => (x : ℚ)),
   ("010F".data, fun x => (x : ℚ) - 40),
   ("0111".data, fun x => (x : ℚ) * 100 / 255),
   ("0104".data, fun x => (x : ℚ) * 100 / 255),
   ("0106".data, fun x => ((x : ℚ) - 128) * 100 / 128),
   ("0107".data, fun x => ((x : ℚ) - 128) * 100 / 128),
   ("010B".data, fun x => (x : ℚ)),
   ("010E".data, fun x => ((x : ℚ) - 128) / 2),
   ("0110".data, fun x => (((x >>> 8) * 256 + (x &&& 0xFF) : Nat) : ℚ) / 100),
   ("0133".data, fun x => (x : ℚ) / 200),
   ("0142".data, fun x => (((x >>> 8) * 256 + (x &&& 0xFF) : Nat) : ℚ) / 1000),
   ("0143".data, fun x => (((x >>> 8) * 256 + (x &&& 0xFF) : Nat) : ℚ) * 100 / 255),
   ("0144".data, fun x => (((x >>> 8) * 256 + (x &&& 0xFF) : Nat) : ℚ) / 32768),
   ("0145".data, fun x => (x : ℚ) * 100 / 255),
   ("0146".data, fun x => (x : ℚ) - 40),
   ("0147".data, fun x => (x : ℚ) * 100 / 255),
   ("0149".data, fun x => (x : ℚ) * 100 / 255),
   ("014A".data, fun x => (x : ℚ) * 100 / 255),
   ("015C".data, fun x => (x : ℚ) - 40)]

/-- `ELM327Scanner._apply_pid_formula` (elm327.py lines 288-317):
`formulas.get(pid, lambda x: x)(raw_value)`. -/
def apply_pid_formula (pid : PyStr) (raw_value : Nat) : ℚ :=
  ((formulasTable.lookup pid).getD (fun x => (x : ℚ))) raw_value

/-- The `units` dictionary of `_get_pid_unit` (elm327.py lines 321-343). -/
def unitsTable : List (PyStr × PyStr) :=
  [("0104".data, "%".data), ("0105".data, "°C".data), ("0106".data, "%".data),
   ("0107".data, "%".data), ("010B".data, "kPa".data), ("010C".data, "RPM".data),
   ("010D".data, "km/h".data), ("010E".data, "degrees".data), ("010F".data, "°C".data),
   ("0110".data, "g/s".data), ("0111".data, "%".data), ("0133".data, "kPa".data),
   ("0142".data, "V".data), ("0143".data, "%".data), ("0144".data, "ratio".data),
   ("0145".data, "%".data), ("0146".data, "°C".data), ("0147".data, "%".data),
   ("0149".data, "%".data), ("014A".data, "%".data), ("015C".data, "°C".data)]

/-- `ELM327Scanner._get_pid_unit` (elm327.py lines 319-344):
`units.get(pid, "")`. -/
def get_pid_unit (pid : PyStr) : PyStr :=
  (unitsTable.lookup pid).getD []

/-- The `descriptions` dictionary of `_get_pid_description` (elm327.py
lines 348-370). -/
def descriptionsTable : List (PyStr × PyStr) :=
  [("0104".data, "Calculated Engine Load".data),
   ("0105".data, "Engine Coolant Temperature".data),
   ("0106".data, "Short Term Fuel Trim Bank 1".data),
   ("0107".data, "Long Term Fuel Trim Bank 1".data),
   ("010B".data, "Intake Manifold Absolute Pressure".data),
   ("010C".data, "Engine RPM".data),
   ("010D".data, "Vehicle Speed".data),
   ("010E".data, "Timing Advance".data),
   ("010F".data, "Intake Air Temperature".data),
   ("0110".data, "MAF Air Flow Rate".data),
   ("0111".data, "Throttle Position".data),
   ("0133".data, "Absolute Barometric Pressure".data),
   ("0142".data, "Control Module Voltage".data),
   ("0143".data, "Absolute Load Value".data),
   ("0144".data, "Fuel/Air Commanded Equivalence Ratio".data),
   ("0145".data, "Relative Throttle Position".data),
   ("0146".data, "Ambient Air Temperature".data),
   ("0147".data, "Absolute Throttle Position B".data),
   ("0149".data, "Accelerator Pedal Position D".data),
   ("014A".data, "Accelerator Pedal Position E".data),
   ("015C".data, "Engine Oil Temperature".data)]

/-- `ELM327Scanner._get_pid_description` (elm327.py lines 346-371):
`descriptions.get(pid, f"PID \x7bpid\x7d")`. -/
def get_pid_description (pid : PyStr) : PyStr :=
  (descriptionsTable.lookup pid).getD ("PID ".data ++ pid)

/-- C5 counterexample: for the unknown PID 9999 the description lookup does
not return the empty string - it returns the nonempty fallback "PID 9999". -/
theorem get_pid_description_unknown_nonempty :
    get_pid_description ("9999".data) = "PID 9999".data ∧
    "PID 9999".data ≠ ([] : PyStr) :=
  ⟨rfl, by decide⟩

/-- C5 (amended): lookups on a PID absent from all three registry tables
succeed rather than fail - the formula is the identity, the unit is the
empty string, and the description is the fallback "PID " followed by the
pid (not the empty string the claim states). -/
theorem pid_registry_fallback (pid : PyStr) (x : Nat)
    (hf : formulasTable.lookup pid = none)
    (hu : unitsTable.lookup pid = none)
    (hd : descriptionsTable.lookup pid = none) :
    apply_pid_formula pid x = (x : ℚ) ∧
    get_pid_unit pid = [] ∧
    get_pid_description pid = "PID ".data ++ pid := by
  unfold apply_pid_formula get_pid_unit get_pid_description
  rw [hf, hu, hd]
  exact ⟨rfl, rfl, rfl⟩

/-- C5 witness: the fallback theorem applied at the unknown PID 9999 and
raw value 7. -/
theorem pid_registry_fallback_witness :
    apply_pid_formula ("9999".data) 7 = (7 : ℚ) ∧
    get_pid_unit ("9999".data) = [] ∧
    get_pid_description ("9999".data) = "PID ".data ++ "9999".data :=
  pid_registry_fallback ("9999".data) 7 rfl rfl rfl

/-- One poll iteration of the `_send_command` read loop: either no bytes
are waiting, a line is read (already utf-8-decoded), or `readline` raises
(the caught `read_error` branch). -/
inductive ReadEvent where
  | noData : ReadEvent
  | line (l : PyStr) : ReadEvent
  | readError : ReadEvent
deriving DecidableEq

/-- The bounded read loop of `_send_command` (elm327.py lines 142-162),
over the finite schedule of poll outcomes within the 10-second ceiling:
empty stripped lines are skipped, lines are accumulated with a newline, a
line containing the prompt ">" ends the loop after being appended, a read
error ends it, and running out of schedule models the timeout.  (The
source's second `line.endswith(">")` check is unreachable: it is tested
only when ">" is not in the line.) -/
def sendLoop : List ReadEvent → PyStr → PyStr
  | [], acc => acc
  | ReadEvent.noData :: es, acc => sendLoop es acc
  | ReadEvent.readError :: _, acc => acc
  | ReadEvent.line l :: es, acc =>
    if stripPy l = [] then sendLoop es acc
    else if '>' ∈ stripPy l then acc ++ stripPy l ++ ['\n']
    else sendLoop es (acc ++ stripPy l ++ ['\n'])

/-- `ELM327Scanner._send_command` (elm327.py lines 126-165): raises
ConnectionError when not connected, otherwise returns the stripped
accumulated response. -/
def send_command (connected : Bool) (events : List ReadEvent) : Except PyStr PyStr :=
  if connected then .ok (stripPy (sendLoop events []))
  else .error ("Not connected to ELM327 scanner".data)

lemma sendLoop_no_data : ∀ (events : List ReadEvent) (acc : PyStr),
    (∀ e ∈ events, e = ReadEvent.noData) → sendLoop events acc = acc := by
  intro events
  induction events with
  | nil => intro acc _; rfl
  | cons e es ih =>
    intro acc h
    have he := h e (List.mem_cons_self _ _)
    subst he
    exact ih acc (fun q hq => h q (List.mem_cons_of_mem _ hq))

/-- C8: on an established connection, a command whose read schedule never
delivers bytes before the timeout ceiling returns the empty string and
does not raise. -/
theorem send_command_empty_on_silence (events : List ReadEvent)
    (h : ∀ e ∈ events, e = ReadEvent.noData) :
    send_command true events = Except.ok [] := by
  unfold send_command
  rw [if_pos rfl, sendLoop_no_data events [] h]
  rfl

/-- C8 witness: the theorem applied to a concrete all-silent two-poll
schedule. -/
theorem send_command_empty_on_silence_witness :
    send_command true [ReadEvent.noData, ReadEvent.noData] = Except.ok [] :=
  send_command_empty_on_silence [ReadEvent.noData, ReadEvent.noData] (by decide)

/-- `TroubleCodeInfo` (api/schemas/scanner.py), as built at scanner.py
lines 1256-1283. -/
structure TroubleCodeInfo where
  code : PyStr
  description : PyStr
  system : PyStr
  severity : PyStr
  status : PyStr
deriving DecidableEq

/-- `LiveParameter` (api/schemas/scanner.py). -/
structure LiveParameter where
  name : PyStr
  value : ℚ
  unit : PyStr
deriving DecidableEq

/-- `FreezeFrameData` (api/schemas/scanner.py); `frame_data` is stored as
the raw data string (scanner.py line 1345). -/
structure FreezeFrameData where
  dtc_code : PyStr
  raw_data : PyStr
deriving DecidableEq

/-- `ReadinessMonitor` (api/schemas/scanner.py). -/
structure ReadinessMonitor where
  monitor_name : PyStr
  status : PyStr
deriving DecidableEq

/-- `FullDiagnosticScanResponse` (api/schemas/scanner.py lines 194-224),
restricted to the fields the scan computes (scan_id, scan_type, timestamp
and scan_duration are identifiers and wall-clock data).  `vin` stands for
`vehicle_info.vin`. -/
structure FullScanResponse where
  status : PyStr
  vin : Option PyStr
  trouble_codes : List TroubleCodeInfo
  active_codes_count : Nat
  pending_codes_count : Nat
  permanent_codes_count : Nat
  readiness_monitors : List ReadinessMonitor
  monitors_ready : Nat
  monitors_not_ready : Nat
  live_parameters : List LiveParameter
  freeze_frames : List FreezeFrameData
  overall_health : PyStr
  error_messages : List PyStr
deriving DecidableEq

/-- Modelled from the spec: the retrieval calls the full scan makes on the
scanner whose implementations are not under src/ (`get_vin_from_obd2`,
`get_pending_dtc_codes`, `get_permanent_dtc_codes`,
`get_readiness_monitors`, `get_live_parameters`, `get_freeze_frame_data`
are only called, never defined, in the sources), together with the request
flags.  Per spec section 4.6 each is an independent step that either
returns its data or fails; `Except.error` carries the exception text.
`describe` stands for `get_code_description` with its JSON resource tables
loaded (the tables are data files, not code).  `get_dtc_codes` is
implemented in src/ and its output enters through `activeResult`. -/
structure ScanEnv where
  include_vin : Bool
  include_live_parameters : Bool
  include_freeze_frame : Bool
  vinResult : Except PyStr PyStr
  activeResult : Except PyStr (List PyStr)
  pendingResult : Except PyStr (List PyStr)
  permanentResult : Except PyStr (List PyStr)
  monitorsResult : Except PyStr (List (PyStr × PyStr))
  liveResult : Except PyStr (List (PyStr × ℚ × PyStr))
  freezeResult : PyStr → Except PyStr (List (PyStr × PyStr))
  describe : PyStr → PyStr

/-- Construction of one `TroubleCodeInfo` (scanner.py lines 1256-1262):
description, system category and severity are computed from the code
string; an exception from the severity/description pipeline (both raise
exactly when `_clean_dtc_code` raises) aborts the whole trouble-code
step. -/
def mkInfo (describe : PyStr → PyStr) (st : PyStr) (code : PyStr) :
    Except PyStr TroubleCodeInfo :=
  match get_dtc_severity code with
  | .error e => .error e
  | .ok sev => .ok ⟨code, describe code, categorize_dtc code, sev, st⟩

/-- One of the three code-processing loops of scanner.py lines 1256-1283:
append an entry with the given status for every code satisfying the
dedup filter. -/
def buildPass (describe : PyStr → PyStr) (st : PyStr) (keep : PyStr → Bool) :
    List PyStr → Except PyStr (List TroubleCodeInfo)
  | [] => .ok []
  | c :: cs =>
    if keep c then
      match mkInfo describe st c with
      | .error e => .error e
      | .ok i =>
        match buildPass describe st keep cs with
        | .error e => .error e
        | .ok rest => .ok (i :: rest)
    else buildPass describe st keep cs

/-- The `all_codes` aggregation (scanner.py lines 1255-1283): all active
codes as Active, pending codes not already active as Pending, permanent
codes not active or pending as Permanent. -/
def buildCodes (describe : PyStr → PyStr) (a p pm : List PyStr) :
    Except PyStr (List TroubleCodeInfo) :=
  match buildPass describe ("Active".data) (fun _ => true) a with
  | .error e => .error e
  | .ok l1 =>
    match buildPass describe ("Pending".data) (fun c => decide (c ∉ a)) p with
    | .error e => .error e
    | .ok l2 =>
      match buildPass describe ("Permanent".data) (fun c => decide (c ∉ a ∧ c ∉ p)) pm with
      | .error e => .error e
      | .ok l3 => .ok (l1 ++ l2 ++ l3)

/-- The readiness-monitor loop (scanner.py lines 1298-1307): entries other
than MIL and DTC_Count. -/
def monitorsFiltered (m : List (PyStr × PyStr)) : List ReadinessMonitor :=
  (m.filter (fun kv => kv.1 ≠ "MIL".data ∧ kv.1 ≠ "DTC_Count".data)).map
    (fun kv => ⟨kv.1, kv.2⟩)

/-- The freeze-frame loop (scanner.py lines 1339-1346): fetch frames for
each code in order, flattening; the first exception aborts the step. -/
def fetchFrames (f : PyStr → Except PyStr (List (PyStr × PyStr))) :
    List PyStr → Except PyStr (List FreezeFrameData)
  | [] => .ok []
  | c :: cs =>
    match f c with
    | .error e => .error e
    | .ok frames =>
      match fetchFrames f cs with
      | .error e => .error e
      | .ok rest => .ok (frames.map (fun fr => ⟨fr.1, fr.2⟩) ++ rest)

/-- The overall-health computation (scanner.py lines 1355-1362). -/
def overallHealth (tcs : List TroubleCodeInfo) : PyStr :=
  if tcs ≠ [] then
    if tcs.filter (fun tc => tc.severity == "Critical".data) ≠ [] then "critical".data
    else "warning".data
  else "good".data

/-- Step 1 of the scan, VIN retrieval (scanner.py lines 1229-1238). -/
def vinStep (env : ScanEnv) : FullScanResponse × List PyStr → FullScanResponse × List PyStr :=
  fun (r, errs) =>
    if env.include_vin then
      match env.vinResult with
      | .ok vin =>
        if vin ≠ [] then ({ r with vin := some vin }, errs)
        else (r, errs ++ ["Could not retrieve VIN via OBD2".data])
      | .error e => (r, errs ++ ["VIN retrieval failed: ".data ++ e])
    else (r, errs)

/-- Step 2 of the scan, trouble codes (scanner.py lines 1241-1289): the
counts are set as each retrieval succeeds, so an exception later in the
step keeps the counts already assigned. -/
def dtcStep (env : ScanEnv) : FullScanResponse × List PyStr → FullScanResponse × List PyStr :=
  fun (r, errs) =>
    match env.activeResult with
    | .error e => (r, errs ++ ["Trouble code retrieval failed: ".data ++ e])
    | .ok a =>
      let r := { r with active_codes_count := a.length }
      match env.pendingResult with
      | .error e => (r, errs ++ ["Trouble code retrieval failed: ".data ++ e])
      | .ok p =>
        let r := { r with pending_codes_count := p.length }
        match env.permanentResult with
        | .error e => (r, errs ++ ["Trouble code retrieval failed: ".data ++ e])
        | .ok pm =>
          let r := { r with permanent_codes_count := pm.length }
          match buildCodes env.describe a p pm with
          | .error e => (r, errs ++ ["Trouble code retrieval failed: ".data ++ e])
          | .ok tcs => ({ r with trouble_codes := tcs }, errs)

/-- Step 3 of the scan, readiness monitors (scanner.py lines 1292-1315). -/
def monitorsStep (env : ScanEnv) :
    FullScanResponse × List PyStr → FullScanResponse × List PyStr :=
  fun (r, errs) =>
    match env.monitorsResult with
    | .ok m =>
      ({ r with
          readiness_monitors := monitorsFiltered m
          monitors_ready :=
            ((monitorsFiltered m).filter (fun mo => mo.status == "Ready".data)).length
          monitors_not_ready :=
            ((monitorsFiltered m).filter (fun mo => mo.status == "Not Ready".data)).length },
        errs)
    | .error e => (r, errs ++ ["Readiness monitor check failed: ".data ++ e])

/-- Step 4 of the scan, live parameters (scanner.py lines 1318-1334). -/
def liveStep (env : ScanEnv) :
    FullScanResponse × List PyStr → FullScanResponse × List PyStr :=
  fun (r, errs) =>
    if env.include_live_parameters then
      match env.liveResult with
      | .ok ps =>
        ({ r with live_parameters := ps.map (fun t => ⟨t.1, t.2.1, t.2.2⟩) }, errs)
      | .error e => (r, errs ++ ["Live parameters retrieval failed: ".data ++ e])
    else (r, errs)

/-- Step 5 of the scan, freeze frames (scanner.py lines 1337-1352): runs
only when requested and trouble codes were retrieved, limited to the first
3 codes. -/
def freezeStep (env : ScanEnv) :
    FullScanResponse × List PyStr → FullScanResponse × List PyStr :=
  fun (r, errs) =>
    if env.include_freeze_frame ∧ r.trouble_codes ≠ [] then
      match fetchFrames env.freezeResult ((r.trouble_codes.take 3).map (fun tc => tc.code)) with
      | .ok fs => ({ r with freeze_frames := fs }, errs)
      | .error e => (r, errs ++ ["Freeze frame retrieval failed: ".data ++ e])
    else (r, errs)

/-- The response as first initialized (scanner.py lines 1219-1224 plus the
schema defaults of api/schemas/scanner.py lines 194-224). -/
def initialResponse : FullScanResponse :=
  { status := "partial".data
    vin := none
    trouble_codes := []
    active_codes_count := 0
    pending_codes_count := 0
    permanent_codes_count := 0
    readiness_monitors := []
    monitors_ready := 0
    monitors_not_ready := 0
    live_parameters := []
    freeze_frames := []
    overall_health := "unknown".data
    error_messages := [] }

/-- The body of `perform_full_diagnostic_scan` after the connection guard
(scanner.py lines 1210-1376): the five steps in sequence, then overall
health (lines 1355-1362) and finalization (lines 1367-1373; status is
"partial" exactly when error messages accumulated, else "completed"). -/
def perform_core (env : ScanEnv) : FullScanResponse :=
  let s := freezeStep env (liveStep env (monitorsStep env
    (dtcStep env (vinStep env (initialResponse, [])))))
  let r := { s.1 with overall_health := overallHealth s.1.trouble_codes }
  { r with
    error_messages := s.2
    status := if s.2 ≠ [] then "partial".data else "completed".data }

/-- `perform_full_diagnostic_scan` (scanner.py lines 1200-1385): an
HTTP 400 error when the scanner is not connected (lines 1204-1208),
otherwise the computed response is returned. -/
def perform_full_diagnostic_scan (connected : Bool) (env : ScanEnv) :
    Except PyStr FullScanResponse :=
  if connected then .ok (perform_core env)
  else .error ("Scanner not connected".data)

/-- The VIN field as determined by the VIN step alone. -/
def vinField (env : ScanEnv) : Option PyStr :=
  if env.include_vin then
    match env.vinResult with
    | .ok v => if v ≠ [] then some v else none
    | .error _ => none
  else none

/-- The error messages contributed by the VIN step alone. -/
def vinStepErrs (env : ScanEnv) : List PyStr :=
  if env.include_vin then
    match env.vinResult with
    | .ok v => if v ≠ [] then [] else ["Could not retrieve VIN via OBD2".data]
    | .error e => ["VIN retrieval failed: ".data ++ e]
  else []

/-- The outcome of the trouble-code step: the first failing retrieval (or
the processing of the codes) aborts it. -/
def dtcStepData (env : ScanEnv) : Except PyStr (List TroubleCodeInfo) := do
  let a ← env.activeResult
  let p ← env.pendingResult
  let pm ← env.permanentResult
  buildCodes env.describe a p pm

/-- The trouble-code list as determined by the trouble-code step alone. -/
def scanTroubleCodes (env : ScanEnv) : List TroubleCodeInfo :=
  match dtcStepData env with
  | .ok tcs => tcs
  | .error _ => []

/-- The error messages contributed by the trouble-code step alone. -/
def dtcStepErrs (env : ScanEnv) : List PyStr :=
  match dtcStepData env with
  | .ok _ => []
  | .error e => ["Trouble code retrieval failed: ".data ++ e]

/-- The readiness monitors as determined by the monitor step alone. -/
def monField (env : ScanEnv) : List ReadinessMonitor :=
  match env.monitorsResult with
  | .ok m => monitorsFiltered m
  | .error _ => []

/-- The error messages contributed by the monitor step alone. -/
def monStepErrs (env : ScanEnv) : List PyStr :=
  match env.monitorsResult with
  | .ok _ => []
  | .error e => ["Readiness monitor check failed: ".data ++ e]

/-- The live parameters as determined by the live-parameter step alone. -/
def liveField (env : ScanEnv) : List LiveParameter :=
  if env.include_live_parameters then
    match env.liveResult with
    | .ok ps => ps.map (fun t => ⟨t.1, t.2.1, t.2.2⟩)
    | .error _ => []
  else []

/-- The error messages contributed by the live-parameter step alone. -/
def liveStepErrs (env : ScanEnv) : List PyStr :=
  if env.include_live_parameters then
    match env.liveResult with
    | .ok _ => []
    | .error e => ["Live parameters retrieval failed: ".data ++ e]
  else []

/-- The freeze frames retrieved for a given trouble-code list, with a
default on failure or when the step is disabled. -/
def freezeFieldOf (env : ScanEnv) (tcs : List TroubleCodeInfo)
    (dflt : List FreezeFrameData) : List FreezeFrameData :=
  if env.include_freeze_frame ∧ tcs ≠ [] then
    match fetchFrames env.freezeResult ((tcs.take 3).map (fun tc => tc.code)) with
    | .ok fs => fs
    | .error _ => dflt
  else dflt

/-- The error messages contributed by the freeze-frame step for a given
trouble-code list. -/
def freezeErrsOf (env : ScanEnv) (tcs : List TroubleCodeInfo) : List PyStr :=
  if env.include_freeze_frame ∧ tcs ≠ [] then
    match fetchFrames env.freezeResult ((tcs.take 3).map (fun tc => tc.code)) with
    | .ok _ => []
    | .error e => ["Freeze frame retrieval failed: ".data ++ e]
  else []

/-- The freeze frames of the scan (the step consumes the codes retrieved
by the trouble-code step). -/
def freezeField (env : ScanEnv) : List FreezeFrameData :=
  freezeFieldOf env (scanTroubleCodes env) []

/-- The error messages contributed by the freeze-frame step of the scan. -/
def freezeStepErrs (env : ScanEnv) : List PyStr :=
  freezeErrsOf env (scanTroubleCodes env)

/-- All error messages of the scan, step by step in program order. -/
def scanErrs (env : ScanEnv) : List PyStr :=
  vinStepErrs env ++ dtcStepErrs env ++ monStepErrs env ++
    liveStepErrs env ++ freezeStepErrs env

lemma vinStep_spec (env : ScanEnv) (r : FullScanResponse) (errs : List PyStr) :
    vinStep env (r, errs) =
      ({ r with vin := match vinField env with | some v => some v | none => r.vin },
        errs ++ vinStepErrs env) := by
  unfold vinStep vinField vinStepErrs
  cases hi : env.include_vin
  · simp
  · cases hv : env.vinResult with
    | error e => simp
    | ok v =>
      by_cases hveq : v = [] <;> simp [hveq]

lemma dtcStep_spec (env : ScanEnv) (r : FullScanResponse) (errs : List PyStr) :
    dtcStep env (r, errs) =
      ({ r with
          active_codes_count :=
            match env.activeResult with
            | .ok a => a.length
            | .error _ => r.active_codes_count
          pending_codes_count :=
            match env.activeResult, env.pendingResult with
            | .ok _, .ok p => p.length
            | _, _ => r.pending_codes_count
          permanent_codes_count :=
            match env.activeResult, env.pendingResult, env.permanentResult with
            | .ok _, .ok _, .ok pm => pm.length
            | _, _, _ => r.permanent_codes_count
          trouble_codes :=
            match dtcStepData env with
            | .ok tcs => tcs
            | .error _ => r.trouble_codes },
        errs ++ dtcStepErrs env) := by
  unfold dtcStep
  cases ha : env.activeResult with
  | error e => simp [dtcStepData, dtcStepErrs, ha, Bind.bind, Except.bind]
  | ok a =>
    cases hpp : env.pendingResult with
    | error e => simp [dtcStepData, dtcStepErrs, ha, hpp, Bind.bind, Except.bind]
    | ok p =>
      cases hpm : env.permanentResult with
      | error e => simp [dtcStepData, dtcStepErrs, ha, hpp, hpm, Bind.bind, Except.bind]
      | ok pm =>
        cases hb : buildCodes env.describe a p pm with
        | error e => simp [dtcStepData, dtcStepErrs, ha, hpp, hpm, hb, Bind.bind, Except.bind]
        | ok tcs => simp [dtcStepData, dtcStepErrs, ha, hpp, hpm, hb, Bind.bind, Except.bind]

lemma monitorsStep_spec (env : ScanEnv) (r : FullScanResponse) (errs : List PyStr) :
    monitorsStep env (r, errs) =
      ({ r with
          readiness_monitors :=
            match env.monitorsResult with
            | .ok m => monitorsFiltered m
            | .error _ => r.readiness_monitors
          monitors_ready :=
            match env.monitorsResult with
            | .ok m => ((monitorsFiltered m).filter (fun mo => mo.status == "Ready".data)).length
            | .error _ => r.monitors_ready
          monitors_not_ready :=
            match env.monitorsResult with
            | .ok m =>
              ((monitorsFiltered m).filter (fun mo => mo.status == "Not Ready".data)).length
            | .error _ => r.monitors_not_ready },
        errs ++ monStepErrs env) := by
  unfold monitorsStep monStepErrs
  cases hm : env.monitorsResult with
  | error e => simp
  | ok m => simp

lemma liveStep_spec (env : ScanEnv) (r : FullScanResponse) (errs : List PyStr) :
    liveStep env (r, errs) =
      ({ r with
          live_parameters :=
            if env.include_live_parameters then
              match env.liveResult with
              | .ok ps => ps.map (fun t => ⟨t.1, t.2.1, t.2.2⟩)
              | .error _ => r.live_parameters
            else r.live_parameters },
        errs ++ liveStepErrs env) := by
  unfold liveStep liveStepErrs
  cases hi : env.include_live_parameters
  · simp
  · cases hl : env.liveResult with
    | error e => simp
    | ok ps => simp

lemma freezeStep_spec (env : ScanEnv) (r : FullScanResponse) (errs : List PyStr) :
    freezeStep env (r, errs) =
      ({ r with freeze_frames := freezeFieldOf env r.trouble_codes r.freeze_frames },
        errs ++ freezeErrsOf env r.trouble_codes) := by
  unfold freezeStep freezeFieldOf freezeErrsOf
  dsimp only
  by_cases hc : env.include_freeze_frame = true ∧ r.trouble_codes ≠ []
  · rw [if_pos hc, if_pos hc, if_pos hc]
    cases hf : fetchFrames env.freezeResult ((r.trouble_codes.take 3).map (fun tc => tc.code)) with
    | error e => simp
    | ok fs => simp
  · rw [if_neg hc, if_neg hc, if_neg hc]
    simp

lemma perform_core_eq (env : ScanEnv) :
    perform_core env =
      { status := if scanErrs env ≠ [] then "partial".data else "completed".data
        vin := vinField env
        trouble_codes := scanTroubleCodes env
        active_codes_count :=
          match env.activeResult with
          | .ok a => a.length
          | .error _ => 0
        pending_codes_count :=
          match env.activeResult, env.pendingResult with
          | .ok _, .ok p => p.length
          | _, _ => 0
        permanent_codes_count :=
          match env.activeResult, env.pendingResult, env.permanentResult with
          | .ok _, .ok _, .ok pm => pm.length
          | _, _, _ => 0
        readiness_monitors := monField env
        monitors_ready :=
          match env.monitorsResult with
          | .ok m => ((monitorsFiltered m).filter (fun mo => mo.status == "Ready".data)).length
          | .error _ => 0
        monitors_not_ready :=
          match env.monitorsResult with
          | .ok m =>
            ((monitorsFiltered m).filter (fun mo => mo.status == "Not Ready".data)).length
          | .error _ => 0
        live_parameters := liveField env
        freeze_frames := freezeField env
        overall_health := overallHealth (scanTroubleCodes env)
        error_messages := scanErrs env } := by
  unfold perform_core
  simp only [vinStep_spec, dtcStep_spec, monitorsStep_spec, liveStep_spec, freezeStep_spec]
  cases hv : vinField env <;>
    simp [hv, scanErrs, scanTroubleCodes, freezeField, freezeStepErrs, vinField,
      monField, liveField, initialResponse, List.append_assoc]

/-- C6: with the scanner connected, the full diagnostic scan returns a
result rather than raising; each step's failure contributes its message to
the error list without stopping the others - every populated field is a
function of its own step's outcome alone - and the status is "partial"
exactly when the error list is nonempty, "completed" exactly when it is
empty. -/
theorem scan_isolates_step_failures (env : ScanEnv) :
    perform_full_diagnostic_scan true env = Except.ok (perform_core env) ∧
    (perform_core env).error_messages =
      vinStepErrs env ++ dtcStepErrs env ++ monStepErrs env ++
        liveStepErrs env ++ freezeStepErrs env ∧
    ((perform_core env).status = "partial".data ↔
      (perform_core env).error_messages ≠ []) ∧
    ((perform_core env).status = "completed".data ↔
      (perform_core env).error_messages = []) ∧
    (perform_core env).vin = vinField env ∧
    (perform_core env).trouble_codes = scanTroubleCodes env ∧
    (perform_core env).readiness_monitors = monField env ∧
    (perform_core env).live_parameters = liveField env ∧
    (perform_core env).freeze_frames = freezeField env := by
  refine ⟨rfl, ?_, ?_, ?_, ?_, ?_, ?_, ?_, ?_⟩ <;> rw [perform_core_eq] <;>
    first
      | rfl
      | (by_cases he : scanErrs env = [] <;> simp [he])

lemma filter_ne_nil_iff {α : Type} (p : α → Bool) (l : List α) :
    l.filter p ≠ [] ↔ ∃ x ∈ l, p x = true := by
  constructor
  · intro h
    cases hf : l.filter p with
    | nil => exact absurd hf h
    | cons x xs =>
      have hx : x ∈ l.filter p := hf ▸ List.mem_cons_self _ _
      rcases List.mem_filter.mp hx with ⟨h1, h2⟩
      exact ⟨x, h1, h2⟩
  · rintro ⟨x, hx, hp⟩ hnil
    have : x ∈ l.filter p := List.mem_filter.mpr ⟨hx, hp⟩
    rw [hnil] at this
    exact absurd this (List.not_mem_nil x)

lemma overallHealth_spec (tcs : List TroubleCodeInfo) :
    (overallHealth tcs = "critical".data ↔ ∃ tc ∈ tcs, tc.severity = "Critical".data) ∧
    (overallHealth tcs = "warning".data ↔
      tcs ≠ [] ∧ ∀ tc ∈ tcs, tc.severity ≠ "Critical".data) ∧
    (overallHealth tcs = "good".data ↔ tcs = []) := by
  have hiff : tcs.filter (fun tc => tc.severity == "Critical".data) ≠ [] ↔
      ∃ tc ∈ tcs, tc.severity = "Critical".data := by
    rw [filter_ne_nil_iff]
    simp
  unfold overallHealth
  split_ifs with h1 h2
  · refine ⟨⟨fun _ => hiff.mp h2, fun _ => rfl⟩, ⟨fun hcw => absurd hcw (by decide), ?_⟩,
      ⟨fun hcg => absurd hcg (by decide), fun hnil => absurd hnil h1⟩⟩
    rintro ⟨-, hall⟩
    rcases hiff.mp h2 with ⟨tc, htc, hsev⟩
    exact absurd hsev (hall tc htc)
  · push_neg at h2
    refine ⟨⟨fun hwc => absurd hwc (by decide), ?_⟩, ⟨fun _ => ⟨h1, ?_⟩, fun _ => rfl⟩,
      ⟨fun hwg => absurd hwg (by decide), fun hnil => absurd hnil h1⟩⟩
    · rintro ⟨tc, htc, hsev⟩
      exact absurd (hiff.mpr ⟨tc, htc, hsev⟩) (by simp [h2])
    · intro tc htc hsev
      exact absurd (hiff.mpr ⟨tc, htc, hsev⟩) (by simp [h2])
  · push_neg at h1
    subst h1
    refine ⟨⟨fun hgc => absurd hgc (by decide), ?_⟩, ⟨fun hgw => absurd hgw (by decide), ?_⟩,
      ⟨fun _ => rfl, fun _ => rfl⟩⟩
    · rintro ⟨tc, htc, -⟩
      exact absurd htc (List.not_mem_nil tc)
    · rintro ⟨hne, -⟩
      exact absurd rfl hne

/-- C7: the scan's overall health is "critical" exactly when some
retrieved trouble code has severity Critical, "warning" exactly when codes
were retrieved but none is Critical, and "good" exactly when the retrieved
code list is empty. -/
theorem scan_overall_health (env : ScanEnv) :
    ((perform_core env).overall_health = "critical".data ↔
      ∃ tc ∈ (perform_core env).trouble_codes, tc.severity = "Critical".data) ∧
    ((perform_core env).overall_health = "warning".data ↔
      (perform_core env).trouble_codes ≠ [] ∧
        ∀ tc ∈ (perform_core env).trouble_codes, tc.severity ≠ "Critical".data) ∧
    ((perform_core env).overall_health = "good".data ↔
      (perform_core env).trouble_codes = []) := by
  rw [perform_core_eq]
  exact overallHealth_spec (scanTroubleCodes env)

lemma mkInfo_ok (describe : PyStr → PyStr) (st code : PyStr) (i : TroubleCodeInfo)
    (h : mkInfo describe st code = .ok i) : i.code = code ∧ i.status = st := by
  unfold mkInfo at h
  cases hs : get_dtc_severity code with
  | error e => rw [hs] at h; simp at h
  | ok sev =>
    rw [hs] at h
    simp only [Except.ok.injEq] at h
    subst h
    exact ⟨rfl, rfl⟩

lemma buildPass_ok (describe : PyStr → PyStr) (st : PyStr) (keep : PyStr → Bool) :
    ∀ (l : List PyStr) (out : List TroubleCodeInfo),
      buildPass describe st keep l = .ok out →
        out.map (fun tc => tc.code) = l.filter keep ∧ ∀ tc ∈ out, tc.status = st := by
  intro l
  induction l with
  | nil =>
    intro out h
    simp only [buildPass, Except.ok.injEq] at h
    subst h
    simp
  | cons c cs ih =>
    intro out h
    simp only [buildPass] at h
    cases hk : keep c with
    | false =>
      rw [hk] at h
      simp only [Bool.false_eq_true, if_false] at h
      obtain ⟨hmap, hst⟩ := ih out h
      refine ⟨?_, hst⟩
      rw [List.filter_cons, hk]
      exact hmap
    | true =>
      rw [hk] at h
      simp only [if_true] at h
      cases hm : mkInfo describe st c with
      | error e => rw [hm] at h; simp at h
      | ok i =>
        rw [hm] at h
        cases hb : buildPass describe st keep cs with
        | error e => rw [hb] at h; simp at h
        | ok rest =>
          rw [hb] at h
          simp only [Except.ok.injEq] at h
          subst h
          obtain ⟨hmap, hst⟩ := ih rest hb
          obtain ⟨hic, his⟩ := mkInfo_ok describe st c i hm
          constructor
          · rw [List.filter_cons, hk]
            simp [hic, hmap]
          · intro tc htc
            rcases List.mem_cons.mp htc with rfl | hmem
            · exact his
            · exact hst tc hmem

lemma buildCodes_ok (describe : PyStr → PyStr) (a p pm : List PyStr)
    (tcs : List TroubleCodeInfo) (h : buildCodes describe a p pm = .ok tcs) :
    ∃ l1 l2 l3, tcs = l1 ++ l2 ++ l3 ∧
      l1.map (fun tc => tc.code) = a ∧
      (∀ tc ∈ l1, tc.status = "Active".data) ∧
      l2.map (fun tc => tc.code) = p.filter (fun c => decide (c ∉ a)) ∧
      (∀ tc ∈ l2, tc.status = "Pending".data) ∧
      l3.map (fun tc => tc.code) = pm.filter (fun c => decide (c ∉ a ∧ c ∉ p)) ∧
      (∀ tc ∈ l3, tc.status = "Permanent".data) := by
  unfold buildCodes at h
  cases h1 : buildPass describe ("Active".data) (fun _ => true) a with
  | error e => rw [h1] at h; simp at h
  | ok l1 =>
    rw [h1] at h
    cases h2 : buildPass describe ("Pending".data) (fun c => decide (c ∉ a)) p with
    | error e => rw [h2] at h; simp at h
    | ok l2 =>
      rw [h2] at h
      cases h3 : buildPass describe ("Permanent".data)
          (fun c => decide (c ∉ a ∧ c ∉ p)) pm with
      | error e => rw [h3] at h; simp at h
      | ok l3 =>
        rw [h3] at h
        simp only [Except.ok.injEq] at h
        subst h
        obtain ⟨hm1, hs1⟩ := buildPass_ok _ _ _ a l1 h1
        obtain ⟨hm2, hs2⟩ := buildPass_ok _ _ _ p l2 h2
        obtain ⟨hm3, hs3⟩ := buildPass_ok _ _ _ pm l3 h3
        exact ⟨l1, l2, l3, rfl, by simpa using hm1, hs1, hm2, hs2, hm3, hs3⟩

/-- C9: the aggregated trouble-code list of a scan names each code at most
once, with priority active over pending over permanent (a code retrieved
as active is listed as Active; a pending code not active as Pending; a
permanent code in neither as Permanent), given that the three retrieval
passes are each duplicate-free; and a single `get_dtc_codes` pass never
appends a code it already collected, so its output is always
duplicate-free. -/
theorem dtc_aggregate_dedup (describe : PyStr → PyStr) (a p pm : List PyStr)
    (tcs : List TroubleCodeInfo)
    (ha : a.Nodup) (hp : p.Nodup) (hpm : pm.Nodup)
    (hb : buildCodes describe a p pm = Except.ok tcs) :
    (tcs.map (fun tc => tc.code)).Nodup ∧
    (∀ tc ∈ tcs,
      (tc.code ∈ a → tc.status = "Active".data) ∧
      (tc.code ∉ a → tc.code ∈ p → tc.status = "Pending".data) ∧
      (tc.code ∉ a → tc.code ∉ p → tc.status = "Permanent".data)) ∧
    (∀ response : PyStr, (get_dtc_codes response).Nodup) := by
  obtain ⟨l1, l2, l3, rfl, hm1, hs1, hm2, hs2, hm3, hs3⟩ :=
    buildCodes_ok describe a p pm tcs hb
  have hmem2 : ∀ tc ∈ l2, tc.code ∈ p ∧ tc.code ∉ a := by
    intro tc htc
    have : tc.code ∈ l2.map (fun tc => tc.code) := List.mem_map_of_mem _ htc
    rw [hm2] at this
    rcases List.mem_filter.mp this with ⟨hmp, hdec⟩
    exact ⟨hmp, by simpa using hdec⟩
  have hmem1 : ∀ tc ∈ l1, tc.code ∈ a := by
    intro tc htc
    have : tc.code ∈ l1.map (fun tc => tc.code) := List.mem_map_of_mem _ htc
    rw [hm1] at this
    exact this
  have hmem3 : ∀ tc ∈ l3, tc.code ∈ pm ∧ tc.code ∉ a ∧ tc.code ∉ p := by
    intro tc htc
    have : tc.code ∈ l3.map (fun tc => tc.code) := List.mem_map_of_mem _ htc
    rw [hm3] at this
    rcases List.mem_filter.mp this with ⟨hmp, hdec⟩
    have := of_decide_eq_true hdec
    exact ⟨hmp, this.1, this.2⟩
  refine ⟨?_, ?_, fun response => get_dtc_codes_nodup response⟩
  · rw [List.map_append, List.map_append, hm1, hm2, hm3]
    rw [List.append_assoc]
    refine List.nodup_append.mpr ⟨ha, List.nodup_append.mpr ⟨hp.filter _, hpm.filter _, ?_⟩, ?_⟩
    · intro x hx2 hx3
      rcases List.mem_filter.mp hx2 with ⟨hxp, -⟩
      rcases List.mem_filter.mp hx3 with ⟨-, hdec⟩
      exact (of_decide_eq_true hdec).2 hxp
    · intro x hxa hx23
      rcases List.mem_append.mp hx23 with hx | hx
      · rcases List.mem_filter.mp hx with ⟨-, hdec⟩
        exact (by simpa using hdec : x ∉ a) hxa
      · rcases List.mem_filter.mp hx with ⟨-, hdec⟩
        exact (of_decide_eq_true hdec).1 hxa
  · intro tc htc
    rcases List.mem_append.mp htc with h12 | h3
    · rcases List.mem_append.mp h12 with h1 | h2
      · refine ⟨fun _ => hs1 tc h1, fun hna _ => absurd (hmem1 tc h1) hna,
          fun hna _ => absurd (hmem1 tc h1) hna⟩
      · refine ⟨fun hin => absurd hin (hmem2 tc h2).2, fun _ _ => hs2 tc h2,
          fun _ hnp => absurd (hmem2 tc h2).1 hnp⟩
    · refine ⟨fun hin => absurd hin (hmem3 tc h3).2.1,
        fun _ hin => absurd hin (hmem3 tc h3).2.2, fun _ _ => hs3 tc h3⟩

/-- C9 witness: the dedup theorem applied to the spec's example - both the
active and the pending pass see P0420; the aggregate keeps it once, as
Active. -/
theorem dtc_aggregate_dedup_witness :
    (([⟨"P0420".data, [], "Powertrain (Engine/Transmission)".data,
         "Moderate".data, "Active".data⟩,
       ⟨"P0171".data, [], "Powertrain (Engine/Transmission)".data,
         "High".data, "Pending".data⟩] :
      List TroubleCodeInfo).map (fun tc => tc.code)).Nodup :=
  (dtc_aggregate_dedup (fun _ => []) ["P0420".data] ["P0420".data, "P0171".data] []
      [⟨"P0420".data, [], "Powertrain (Engine/Transmission)".data,
         "Moderate".data, "Active".data⟩,
       ⟨"P0171".data, [], "Powertrain (Engine/Transmission)".data,
         "High".data, "Pending".data⟩]
      (by decide) (by decide) (by decide) rfl).1
